import Mathlib

/-!
Shallow embedding of the RAGNAROK alert-triage service (Python) in Lean 4.

Sources embedded:
  - `src/main.py`            (v1 service: `norm`, `sha1`, `compute_score`,
                              `should_suppress`, `touch_suppress`, `audit_store`,
                              the `/score` endpoint's suppression state machine)
  - `src/app/model_utils.py` (`norm`, `predict_score` in its rule-based branch,
                              i.e. `model is None`, which is the default
                              configuration when no `model.pkl` exists)
  - `src/app/wazuh_handler.py` (`sha1`, dedup-key construction from
                              `parse_wazuh_alert`, `enrich_alert_with_ti`,
                              `validate_alert_structure`)
  - `src/app/main.py`        (v2 `/score` endpoint `score_alert`; the Supabase
                              backend is absent in the default configuration,
                              `get_db` returns `None`, so only the in-memory
                              cache and the audit file are modelled)

Modelling conventions: Python floats are modelled by exact rationals `ℚ`
(the built-in `round(x, 2)` becomes `pyRound2`, round-half-to-even at two
decimals, which is what Python's `round` performs on a tie); Python ints by
`ℤ`/`ℕ`; dictionaries by association lists; the external MISP threat-intel
lookup `misp_boolean_hit` by an oracle parameter `misp : String → Bool`;
`hashlib.sha1(...).hexdigest()[:16]` by a full SHA-1 implementation over the
UTF-8 bytes of the input string, truncated to 16 hex characters.
-/

/-! ## String helpers: lower-casing, substring search, joining -/

/-- Lower-case every character of a string (models Python's `re.I` matching by
normalising the haystack; the needles below are already lower-case). -/
def toLowerStr (s : String) : String := String.mk (s.data.map Char.toLower)

/-- Substring occurrence test on character lists. -/
def containsSub (needle : List Char) : List Char → Bool
  | [] => needle.isEmpty
  | c :: t => needle.isPrefixOf (c :: t) || containsSub needle t

/-- The alternatives of the regex
`powershell|pwsh|wmic|rundll32|certutil|-enc|base64` — a pure alternation of
literals, so `re.search` is an any-substring test. -/
def powershellKeywords : List String :=
  ["powershell", "pwsh", "wmic", "rundll32", "certutil", "-enc", "base64"]

/-- `POWERSHELL_RE.search(s)` as a Boolean: case-insensitive search for any of
the keyword literals (src/main.py line 42, src/app/model_utils.py line 11). -/
def POWERSHELL_RE (s : String) : Bool :=
  powershellKeywords.any (fun k => containsSub k.data (toLowerStr s).data)

/-- `json.dumps` of a string-valued dict, with Python's default separators:
`\x7b"k": "v", ...\x7d`.  Values in the alerts exercised here need no escaping. -/
def pyDumps (d : List (String × String)) : String :=
  "\x7b" ++ String.intercalate ", "
    (d.map (fun p => "\"" ++ p.1 ++ "\": \"" ++ p.2 ++ "\"")) ++ "\x7d"

/-! ## SHA-1 (FIPS 180) over byte lists, for the fingerprint

`hashlib.sha1(s.encode()).hexdigest()[:16]` from src/main.py lines 69-70 and
src/app/wazuh_handler.py lines 7-9.  Bytes are `Nat`s < 256 and 32-bit words
`Nat`s < 2^32 with arithmetic reduced mod 2^32 explicitly. -/

namespace Sha1

/-- UTF-8 encoding of one character (`str.encode()`). -/
def utf8Char (c : Char) : List Nat :=
  let n := c.toNat
  if n < 0x80 then [n]
  else if n < 0x800 then [0xC0 + n / 64, 0x80 + n % 64]
  else if n < 0x10000 then [0xE0 + n / 4096, 0x80 + n / 64 % 64, 0x80 + n % 64]
  else [0xF0 + n / 262144, 0x80 + n / 4096 % 64, 0x80 + n / 64 % 64, 0x80 + n % 64]

/-- UTF-8 bytes of a string. -/
def utf8 (s : String) : List Nat := s.data.flatMap utf8Char

/-- Truncate to a 32-bit word. -/
def w32 (n : Nat) : Nat := n % 2 ^ 32

/-- Rotate a 32-bit word left by `k` (for `n < 2^32`, `k ≤ 32`). -/
def rotl (k n : Nat) : Nat := n % 2 ^ (32 - k) * 2 ^ k + n / 2 ^ (32 - k)

/-- SHA-1 round function. -/
def fval (i b c d : Nat) : Nat :=
  if i < 20 then Nat.lor (Nat.land b c) (Nat.land (Nat.xor b 0xFFFFFFFF) d)
  else if i < 40 then Nat.xor (Nat.xor b c) d
  else if i < 60 then Nat.lor (Nat.lor (Nat.land b c) (Nat.land b d)) (Nat.land c d)
  else Nat.xor (Nat.xor b c) d

/-- SHA-1 round constants. -/
def kval (i : Nat) : Nat :=
  if i < 20 then 0x5A827999
  else if i < 40 then 0x6ED9EBA1
  else if i < 60 then 0x8F1BBCDC
  else 0xCA62C1D6

/-- Message padding: append `0x80`, zero bytes to 56 mod 64, then the bit
length as 8 big-endian bytes. -/
def pad (msg : List Nat) : List Nat :=
  let len := msg.length
  msg ++ [0x80] ++ List.replicate ((119 - len % 64) % 64) 0
      ++ (List.range 8).map (fun i => len * 8 / 2 ^ (8 * (7 - i)) % 256)

/-- The sixteen 32-bit big-endian words of one 64-byte block. -/
def blockWords (block : List Nat) : List Nat :=
  (List.range 16).map (fun i =>
    block.getD (4 * i) 0 * 2 ^ 24 + block.getD (4 * i + 1) 0 * 2 ^ 16 +
    block.getD (4 * i + 2) 0 * 2 ^ 8 + block.getD (4 * i + 3) 0)

/-- Extend sixteen words to the eighty-word message schedule. -/
def sched (ws : List Nat) : List Nat :=
  (List.range 80).foldl (fun acc i =>
    if i < 16 then acc ++ [ws.getD i 0]
    else acc ++ [rotl 1 (Nat.xor (Nat.xor (acc.getD (i - 3) 0) (acc.getD (i - 8) 0))
      (Nat.xor (acc.getD (i - 14) 0) (acc.getD (i - 16) 0)))]) []

/-- One round of the compression loop. -/
def round1 (st : Nat × Nat × Nat × Nat × Nat) (iw : Nat × Nat) :
    Nat × Nat × Nat × Nat × Nat :=
  let (a, b, c, d, e) := st
  (w32 (rotl 5 a + fval iw.1 b c d + e + kval iw.1 + iw.2), a, rotl 30 b, c, d)

/-- Compress one 64-byte block into the running state. -/
def compress (h : Nat × Nat × Nat × Nat × Nat) (block : List Nat) :
    Nat × Nat × Nat × Nat × Nat :=
  let ws := sched (blockWords block)
  let (h0, h1, h2, h3, h4) := h
  let r := ((List.range 80).map (fun i => (i, ws.getD i 0))).foldl round1 (h0, h1, h2, h3, h4)
  let (a, b, c, d, e) := r
  (w32 (h0 + a), w32 (h1 + b), w32 (h2 + c), w32 (h3 + d), w32 (h4 + e))

/-- SHA-1 digest of a byte list, as the five 32-bit words `h0..h4`. -/
def sha1Words (msg : List Nat) : List Nat :=
  let padded := pad msg
  let blocks := (List.range (padded.length / 64)).map
    (fun i => (padded.drop (64 * i)).take 64)
  let r := blocks.foldl compress (0x67452301, 0xEFCDAB89, 0x98BADCFE, 0x10325476, 0xC3D2E1F0)
  let (h0, h1, h2, h3, h4) := r
  [h0, h1, h2, h3, h4]

/-- The sixteen lower-case hex digits, in order. -/
def hexDigits : List Char := "0123456789abcdef".data

/-- Hex digit character for a value `< 16`. -/
def hexChar (d : Nat) : Char := hexDigits.getD d '0'

/-- Eight hex characters of one 32-bit word, most significant nibble first. -/
def toHex8 (n : Nat) : List Char := (List.range 8).map (fun i => hexChar (n / 16 ^ (7 - i) % 16))

/-- `hexdigest()`: 40 hex characters of the five digest words. -/
def hexDigest (ws : List Nat) : List Char := ws.flatMap toHex8

end Sha1

/-- `sha1(s) = hashlib.sha1(s.encode()).hexdigest()[:16]` (src/main.py lines
69-70 and src/app/wazuh_handler.py lines 7-9). -/
def sha1 (s : String) : String :=
  String.mk ((Sha1.hexDigest (Sha1.sha1Words (Sha1.utf8 s))).take 16)

/-! ## The alert data model and the static tables -/

/-- A Wazuh-style alert after pydantic parsing (`WazuhAlert` in src/main.py
lines 44-52 and src/app/main.py lines 37-45).  Dict sub-objects are flattened
to the fields the code reads: `rule.id`, `rule.level`, `rule.description`,
`agent.name`, the `data` dict (string-valued), `mitre.id`.  `none` models an
absent key (or pydantic's `None`). -/
structure Alert where
  ruleId : Option String
  ruleLevel : Option ℚ
  ruleDescription : Option String
  agentName : Option String
  data : List (String × String)
  mitre : List String
  full_log : Option String
  recent_similar_count : ℤ
  ti_hit : Option Bool
deriving DecidableEq

/-- `TECH_RISK = {"T1059": 3, "T1047": 3, "T1021": 2}` (src/main.py line 16,
src/app/model_utils.py line 9). -/
def TECH_RISK : List (String × ℚ) := [("T1059", 3), ("T1047", 3), ("T1021", 2)]

/-- `ASSET_CRIT = {"db-prod": 3, "dc01": 3, "workstation": 1}` (src/main.py
line 17, src/app/model_utils.py line 10). -/
def ASSET_CRIT : List (String × ℚ) := [("db-prod", 3), ("dc01", 3), ("workstation", 1)]

/-- `data.get(key)`. -/
def getData (d : List (String × String)) (k : String) : Option String := d.lookup k

/-- `data.get("srcip") or data.get("src_ip")` — Python's `or` falls through on
a missing key or an empty (falsy) string. -/
def srcipRaw (a : Alert) : Option String :=
  match getData a.data "srcip" with
  | some s => if s = "" then getData a.data "src_ip" else some s
  | none => getData a.data "src_ip"

/-- `srcip = data.get("srcip") or data.get("src_ip") or "-"` (src/main.py
line 93, src/app/wazuh_handler.py line 19). -/
def srcipOf (a : Alert) : String :=
  match srcipRaw a with
  | some s => if s = "" then "-" else s
  | none => "-"

/-- `host = agent.get("name", "workstation")` (src/main.py line 91). -/
def hostOf (a : Alert) : String := a.agentName.getD "workstation"

/-- `sev = rule.get("level", 3)` (src/main.py line 90, model_utils line 66). -/
def sevOf (a : Alert) : ℚ := a.ruleLevel.getD 3

/-- `asset = ASSET_CRIT.get(host, 1)` (src/main.py line 107). -/
def assetOf (a : Alert) : ℚ := (ASSET_CRIT.lookup (hostOf a)).getD 1

/-- `techrisk = max([TECH_RISK.get(t, 1) for t in techs] or [1])`
(src/main.py line 108, model_utils line 78): maximum of the per-technique
risks, or 1 when no technique is present. -/
def techriskOf (techs : List String) : ℚ :=
  match techs.map (fun t => (TECH_RISK.lookup t).getD 1) with
  | [] => 1
  | v :: vs => vs.foldl max v

/-- The pipe-joined fingerprint input
`f"{rule.get('id','-')}|{srcip}|{host}|{','.join(techs)}"` (src/main.py
line 130, src/app/wazuh_handler.py line 23). -/
def dedupInput (a : Alert) : String :=
  a.ruleId.getD "-" ++ "|" ++ srcipOf a ++ "|" ++ hostOf a ++ "|"
    ++ String.intercalate "," a.mitre

/-- The dedup key / fingerprint: `sha1(...)` of the pipe-joined tuple. -/
def dedup_key (a : Alert) : String := sha1 (dedupInput a)

/-- The four identity components the fingerprint is built from. -/
def fpComponents (a : Alert) : String × String × String × String :=
  (a.ruleId.getD "-", srcipOf a, hostOf a, String.intercalate "," a.mitre)

/-! ## Python's `round(x, 2)`

Both scorers end with `score = round(score, 2)` (src/main.py line 119,
src/app/model_utils.py line 97).  Python's `round` rounds a tie to the even
neighbour (banker's rounding). -/

/-- Round a rational to the nearest integer, ties to the even integer. -/
def roundHalfEven (x : ℚ) : ℤ :=
  if x - ⌊x⌋ < 1 / 2 then ⌊x⌋
  else if 1 / 2 < x - ⌊x⌋ then ⌊x⌋ + 1
  else if ⌊x⌋ % 2 = 0 then ⌊x⌋ else ⌊x⌋ + 1

/-- `round(x, 2)`: round to two decimal places, ties to even. -/
def pyRound2 (x : ℚ) : ℚ := (roundHalfEven (100 * x) : ℚ) / 100

/-! ## The v1 service, src/main.py -/

namespace MainV1

/-- `SUPPRESS_MINUTES` (default 10), src/main.py line 29. -/
def SUPPRESS_MINUTES : ℚ := 10

/-- `BURST_MAX` (default 20), src/main.py line 30. -/
def BURST_MAX : ℚ := 20

/-- `SEVERITY_MAX` (default 12), src/main.py line 31. -/
def SEVERITY_MAX : ℚ := 12

/-- `norm` of src/main.py lines 62-67:
`v = val/max; 1.0 if v > 1.0 else (0.0 if v < 0.0 else v)`.  Division by zero
(the `except` branch returning 0.0) coincides with `ℚ`'s `x / 0 = 0`. -/
def norm (val maxVal : ℚ) : ℚ :=
  if 1 < val / maxVal then 1 else if val / maxVal < 0 then 0 else val / maxVal

/-- The heuristic haystack `(alert.full_log or "") + " " + json.dumps(alert.data or {})`
(src/main.py line 97). -/
def heurInput (a : Alert) : String := a.full_log.getD "" ++ " " ++ pyDumps a.data

/-- `heur = 1.0 if POWERSHELL_RE.search(full) else 0.0` (src/main.py line 98). -/
def heurOf (a : Alert) : ℚ := if POWERSHELL_RE (heurInput a) then 1 else 0

/-- Threat-intel feature (src/main.py lines 101-104): the MISP lookup is
consulted only when `ti_hit is None`; otherwise the explicit Boolean is used. -/
def tiOf (misp : String → Bool) (a : Alert) : ℚ :=
  match a.ti_hit with
  | none => if misp (srcipOf a) then 1 else 0
  | some b => if b then 1 else 0

/-- `burst = alert.recent_similar_count or 0` (src/main.py line 94) — on an
int, `or 0` is the identity. -/
def burstOf (a : Alert) : ℚ := (a.recent_similar_count : ℚ)

/-- The numeric score of `compute_score` (src/main.py lines 88-119): the
weighted sum of the six normalized features with the default weights
`0.20/0.20/0.15/0.15/0.15/0.15`, scaled to 0..100, then `round(score, 2)`. -/
def compute_score (misp : String → Bool) (a : Alert) : ℚ :=
  pyRound2 (100 * (0.20 * norm (sevOf a) SEVERITY_MAX
    + 0.20 * tiOf misp a
    + 0.15 * norm (burstOf a) BURST_MAX
    + 0.15 * norm (assetOf a) 3
    + 0.15 * norm (techriskOf a.mitre) 3
    + 0.15 * heurOf a))

/-- `suggested = "block_ip" if score >= 75 else "enrich_only"` (src/main.py
line 133; likewise src/app/main.py line 81 with `SCORE_THRESHOLD` default 75). -/
def suggested_playbook (score : ℚ) : String :=
  if 75 ≤ score then "block_ip" else "enrich_only"

/-- The v1 service's mutable state: the in-memory audit cache (dedup key ↦
score of the last stored record), the suppression table (dedup key ↦ unlock
epoch), and the append-only audit log file (modelled as the list of
(dedup key, score) records in append order). -/
structure TriageState where
  AUDIT_CACHE : List (String × ℚ)
  SUPPRESS : List (String × ℚ)
  auditLog : List (String × ℚ)
deriving DecidableEq

/-- The state at process start: everything empty. -/
def emptyState : TriageState := ⟨[], [], []⟩

/-- `should_suppress` (src/main.py lines 144-152): not suppressed when the
window expired (`now > exp`, `exp` defaulting to 0); otherwise suppressed iff
the new score does not exceed the cached record's score (default 0.0). -/
def should_suppress (st : TriageState) (dkey : String) (new_score now : ℚ) : Bool :=
  let exp := (st.SUPPRESS.lookup dkey).getD 0
  if exp < now then false
  else decide (new_score ≤ (st.AUDIT_CACHE.lookup dkey).getD 0)

/-- `touch_suppress` (src/main.py lines 154-155): set the unlock epoch to
`now + SUPPRESS_MINUTES * 60`. -/
def touch_suppress (st : TriageState) (dkey : String) (now : ℚ) : TriageState :=
  { st with SUPPRESS := (dkey, now + SUPPRESS_MINUTES * 60) :: st.SUPPRESS }

/-- `audit_store` (src/main.py lines 157-172): cache the record under its
dedup key and append it to the audit log file. -/
def audit_store (st : TriageState) (dkey : String) (score : ℚ) : TriageState :=
  { st with AUDIT_CACHE := (dkey, score) :: st.AUDIT_CACHE,
            auditLog := st.auditLog ++ [(dkey, score)] }

/-- Outcome of one `/score` request: either the full decision was recorded, or
the minimal suppressed acknowledgment `{"suppressed": True, "dedup_key": ...,
"ts": ...}` was returned. -/
inductive ScoreOutcome where
  | recorded (dkey : String) (score : ℚ)
  | suppressedAck (dkey : String) (ts : ℚ)
deriving DecidableEq

/-- The suppression state machine of the `/score` endpoint (src/main.py lines
178-190), after `compute_score` has produced the dedup key and score: if
`should_suppress`, answer the suppressed acknowledgment and leave all state
unchanged; otherwise `audit_store` then `touch_suppress`. -/
def score_step (st : TriageState) (dkey : String) (score now : ℚ) :
    ScoreOutcome × TriageState :=
  if should_suppress st dkey score now then (.suppressedAck dkey now, st)
  else (.recorded dkey score, touch_suppress (audit_store st dkey score) dkey now)

end MainV1

/-! ## The v2 modular components, src/app/ -/

namespace ModelUtils

/-- `norm` of src/app/model_utils.py lines 36-41:
`min(max(float(val) / float(max_val), 0.0), 1.0)`. -/
def norm (val maxVal : ℚ) : ℚ := min (max (val / maxVal) 0) 1

/-- The heuristic haystack `full_log + json.dumps(data)` (model_utils line 75
— unlike v1, no space between the two parts). -/
def heurInput (a : Alert) : String := a.full_log.getD "" ++ pyDumps a.data

/-- `heur = 1.0 if POWERSHELL_RE.search(...) else 0.0` (model_utils line 75). -/
def heurOf (a : Alert) : ℚ := if POWERSHELL_RE (heurInput a) then 1 else 0

/-- Truthiness of the `ti_hit` value: `alert.get("ti_hit", False)` is truthy
exactly when the field holds `True` (both `None` and `False` are falsy). -/
def tiTruthy : Option Bool → Bool
  | some true => true
  | _ => false

/-- `ti = 1.0 if ti_hit else 0.0` (model_utils lines 72, 76). -/
def tiOf (a : Alert) : ℚ := if tiTruthy a.ti_hit then 1 else 0

/-- The numeric score of `predict_score` (src/app/model_utils.py lines 59-97)
in the rule-based branch (`model is None`, the default configuration): the
same weighted sum as v1, then `round(score_val, 2)`. -/
def predict_score (a : Alert) : ℚ :=
  pyRound2 (100 * (0.20 * norm (sevOf a) MainV1.SEVERITY_MAX
    + 0.20 * tiOf a
    + 0.15 * norm ((a.recent_similar_count : ℚ)) MainV1.BURST_MAX
    + 0.15 * norm (assetOf a) 3
    + 0.15 * norm (techriskOf a.mitre) 3
    + 0.15 * heurOf a))

end ModelUtils

namespace WazuhHandler

/-- `validate_alert_structure` (src/app/wazuh_handler.py lines 70-73) checks
the raw payload has a `"rule"` key; `ruleKeyPresent` models that key's
presence in the raw JSON body (pydantic would default it to `{}`). -/
structure Payload where
  ruleKeyPresent : Bool
  alert : Alert
deriving DecidableEq

/-- `validate_alert_structure(body)`: `all(field in alert for field in ["rule"])`. -/
def validate_alert_structure (p : Payload) : Bool := p.ruleKeyPresent

/-- `enrich_alert_with_ti` (src/app/wazuh_handler.py lines 60-68): when
`srcip` is truthy and `alert.get("ti_hit")` is falsy — i.e. absent, `None` or
explicitly `False` — overwrite `ti_hit` with the MISP lookup's answer. -/
def enrich_alert_with_ti (misp : String → Bool) (a : Alert) : Alert :=
  match srcipRaw a with
  | some s =>
      if (s != "") && !(ModelUtils.tiTruthy a.ti_hit)
      then { a with ti_hit := some (misp s) } else a
  | none => a

end WazuhHandler

namespace AppMain

/-- The v2 service's state: the in-memory `AUDIT_CACHE` (dedup key ↦ score of
the latest record) and the audit file (append-only (dedup key, score) records).
The Supabase path is absent in the default configuration (`get_db()` returns
`None` without credentials). -/
structure AuditState where
  AUDIT_CACHE : List (String × ℚ)
  auditFile : List (String × ℚ)
deriving DecidableEq

/-- Result of the v2 `/score` endpoint: the error payload
`{"error": "Invalid alert structure"}`, or the scored response. -/
inductive ScoreResult where
  | invalid
  | ok (score : ℚ) (dkey : String) (playbook : String)
deriving DecidableEq

/-- `score_alert` (src/app/main.py lines 59-126): validate the raw payload
(rejecting before any scoring), enrich with threat intel, score with
`predict_score`, choose the playbook against `SCORE_THRESHOLD` (default 75),
then record in cache and audit file. -/
def score_alert (misp : String → Bool) (st : AuditState) (p : WazuhHandler.Payload) :
    ScoreResult × AuditState :=
  if !WazuhHandler.validate_alert_structure p then (.invalid, st)
  else
    let a := WazuhHandler.enrich_alert_with_ti misp p.alert
    let dkey := dedup_key a
    let score_val := ModelUtils.predict_score a
    let suggested := MainV1.suggested_playbook score_val
    (.ok score_val dkey suggested,
      { AUDIT_CACHE := (dkey, score_val) :: st.AUDIT_CACHE,
        auditFile := st.auditFile ++ [(dkey, score_val)] })

end AppMain

/-! ## Lemmas about `roundHalfEven` and `pyRound2` -/

theorem roundHalfEven_mono {x y : ℚ} (h : x ≤ y) : roundHalfEven x ≤ roundHalfEven y := by
  have hf : ⌊x⌋ ≤ ⌊y⌋ := Int.floor_le_floor h
  unfold roundHalfEven
  rcases eq_or_lt_of_le hf with he | hl
  · rw [← he]
    have hfr : x - (⌊x⌋ : ℚ) ≤ y - (⌊x⌋ : ℚ) := by linarith
    split_ifs <;> first | omega | linarith
  · have h2 : ⌊x⌋ + 1 ≤ ⌊y⌋ := hl
    split_ifs <;> omega

theorem pyRound2_mono {x y : ℚ} (h : x ≤ y) : pyRound2 x ≤ pyRound2 y := by
  unfold pyRound2
  have h1 := roundHalfEven_mono (mul_le_mul_of_nonneg_left h (by norm_num : (0:ℚ) ≤ 100))
  have h2 : ((roundHalfEven (100 * x) : ℚ)) ≤ (roundHalfEven (100 * y) : ℚ) := by
    exact_mod_cast h1
  linarith

theorem pyRound2_eq_int (x : ℚ) (n : ℤ) (h : 100 * x = (n : ℚ)) :
    pyRound2 x = (n : ℚ) / 100 := by
  unfold pyRound2 roundHalfEven
  rw [h, Int.floor_intCast, if_pos (by norm_num : (n : ℚ) - (n : ℤ) < 1 / 2)]

theorem pyRound2_eq_down (x : ℚ) (n : ℤ) (h1 : (n : ℚ) ≤ 100 * x)
    (h2 : 100 * x < (n : ℚ) + 1 / 2) : pyRound2 x = (n : ℚ) / 100 := by
  have hf : ⌊100 * x⌋ = n := Int.floor_eq_iff.mpr ⟨h1, by linarith⟩
  unfold pyRound2 roundHalfEven
  rw [hf, if_pos (by linarith : 100 * x - (n : ℚ) < 1 / 2)]

theorem pyRound2_eq_up (x : ℚ) (n : ℤ) (h1 : (n : ℚ) + 1 / 2 < 100 * x)
    (h2 : 100 * x < (n : ℚ) + 1) : pyRound2 x = ((n : ℚ) + 1) / 100 := by
  have hf : ⌊100 * x⌋ = n := Int.floor_eq_iff.mpr ⟨by linarith, by linarith⟩
  unfold pyRound2 roundHalfEven
  rw [hf, if_neg (by linarith : ¬(100 * x - (n : ℚ) < 1 / 2)),
    if_pos (by linarith : 1 / 2 < 100 * x - (n : ℚ))]
  push_cast
  ring

theorem pyRound2_eq_half (x : ℚ) (n : ℤ) (h : 100 * x = (n : ℚ) + 1 / 2) :
    pyRound2 x = (if n % 2 = 0 then (n : ℚ) else (n : ℚ) + 1) / 100 := by
  have hf : ⌊100 * x⌋ = n := Int.floor_eq_iff.mpr ⟨by linarith, by linarith⟩
  unfold pyRound2 roundHalfEven
  rw [hf, if_neg (by rw [h]; norm_num), if_neg (by rw [h]; norm_num)]
  split_ifs <;> push_cast <;> ring

/-! ## Lemmas about the two `norm` functions and the feature extractors -/

theorem MainV1.norm_nonneg_v1 (v m : ℚ) : 0 ≤ MainV1.norm v m := by
  unfold MainV1.norm
  split_ifs with h1 h2
  · norm_num
  · norm_num
  · linarith [le_of_not_lt h2]

theorem MainV1.norm_le_one_v1 (v m : ℚ) : MainV1.norm v m ≤ 1 := by
  unfold MainV1.norm
  split_ifs with h1 h2
  · norm_num
  · norm_num
  · linarith [le_of_not_lt h1]

theorem MainV1.norm_mono_v1 (m : ℚ) (hm : 0 < m) {x y : ℚ} (h : x ≤ y) :
    MainV1.norm x m ≤ MainV1.norm y m := by
  have hd : x / m ≤ y / m := by gcongr
  unfold MainV1.norm
  split_ifs <;> linarith

theorem MainV1.norm_ge_third_v1 (v : ℚ) (h : 1 ≤ v) : 1 / 3 ≤ MainV1.norm v 3 := by
  have hd : (1 : ℚ) / 3 ≤ v / 3 := by linarith
  unfold MainV1.norm
  split_ifs <;> linarith

theorem MainV1.norm_eval_v1 (v m x : ℚ) (h : v / m = x) (h0 : 0 ≤ x) (h1 : x ≤ 1) :
    MainV1.norm v m = x := by
  unfold MainV1.norm
  rw [h]
  split_ifs <;> linarith

theorem ModelUtils.norm_nonneg_mu (v m : ℚ) : 0 ≤ ModelUtils.norm v m :=
  le_min (le_max_right _ _) (by norm_num)

theorem ModelUtils.norm_le_one_mu (v m : ℚ) : ModelUtils.norm v m ≤ 1 := min_le_right _ _

theorem ModelUtils.norm_mono_mu (m : ℚ) (hm : 0 < m) {x y : ℚ} (h : x ≤ y) :
    ModelUtils.norm x m ≤ ModelUtils.norm y m := by
  have hd : x / m ≤ y / m := by gcongr
  exact min_le_min (max_le_max hd le_rfl) le_rfl

theorem ModelUtils.norm_ge_third_mu (v : ℚ) (h : 1 ≤ v) : 1 / 3 ≤ ModelUtils.norm v 3 :=
  le_min (le_trans (by linarith) (le_max_left (v / 3) 0)) (by norm_num)

theorem ModelUtils.norm_eval_mu (v m x : ℚ) (h : v / m = x) (h0 : 0 ≤ x) (h1 : x ≤ 1) :
    ModelUtils.norm v m = x := by
  unfold ModelUtils.norm
  rw [h, max_eq_left h0, min_eq_left h1]

theorem MainV1.tiOf_nonneg_v1 (misp : String → Bool) (a : Alert) : 0 ≤ MainV1.tiOf misp a := by
  unfold MainV1.tiOf
  cases a.ti_hit <;> dsimp <;> split_ifs <;> norm_num

theorem MainV1.tiOf_le_one_v1 (misp : String → Bool) (a : Alert) : MainV1.tiOf misp a ≤ 1 := by
  unfold MainV1.tiOf
  cases a.ti_hit <;> dsimp <;> split_ifs <;> norm_num

theorem ModelUtils.tiOf_nonneg_mu (a : Alert) : 0 ≤ ModelUtils.tiOf a := by
  unfold ModelUtils.tiOf
  split_ifs <;> norm_num

theorem ModelUtils.tiOf_le_one_mu (a : Alert) : ModelUtils.tiOf a ≤ 1 := by
  unfold ModelUtils.tiOf
  split_ifs <;> norm_num

theorem MainV1.heurOf_nonneg_v1 (a : Alert) : 0 ≤ MainV1.heurOf a := by
  unfold MainV1.heurOf
  split_ifs <;> norm_num

theorem MainV1.heurOf_le_one_v1 (a : Alert) : MainV1.heurOf a ≤ 1 := by
  unfold MainV1.heurOf
  split_ifs <;> norm_num

theorem ModelUtils.heurOf_nonneg_mu (a : Alert) : 0 ≤ ModelUtils.heurOf a := by
  unfold ModelUtils.heurOf
  split_ifs <;> norm_num

theorem ModelUtils.heurOf_le_one_mu (a : Alert) : ModelUtils.heurOf a ≤ 1 := by
  unfold ModelUtils.heurOf
  split_ifs <;> norm_num

theorem one_le_lookup_getD (l : List (String × ℚ)) (h : ∀ p ∈ l, 1 ≤ p.2) (k : String) :
    1 ≤ (l.lookup k).getD 1 := by
  induction l with
  | nil => simp [List.lookup]
  | cons p ps ih =>
    obtain ⟨a, b⟩ := p
    unfold List.lookup
    cases hke : (k == a) with
    | false => exact ih fun q hq => h q (List.mem_cons_of_mem _ hq)
    | true => exact h (a, b) (List.mem_cons_self _ _)

theorem one_le_assetOf (a : Alert) : 1 ≤ assetOf a := by
  unfold assetOf
  refine one_le_lookup_getD _ ?_ _
  intro p hp
  simp only [ASSET_CRIT, List.mem_cons, List.not_mem_nil, or_false] at hp
  rcases hp with h | h | h <;> rw [h] <;> norm_num

theorem le_foldl_max (v : ℚ) (l : List ℚ) : v ≤ l.foldl max v := by
  induction l generalizing v with
  | nil => simp
  | cons x xs ih => exact le_trans (le_max_left v x) (ih (max v x))

theorem one_le_techriskOf (l : List String) : 1 ≤ techriskOf l := by
  unfold techriskOf
  cases l with
  | nil => norm_num
  | cons t ts =>
    simp only [List.map_cons]
    have h1 : 1 ≤ (TECH_RISK.lookup t).getD 1 := by
      refine one_le_lookup_getD _ ?_ _
      intro p hp
      simp only [TECH_RISK, List.mem_cons, List.not_mem_nil, or_false] at hp
      rcases hp with h | h | h <;> rw [h] <;> norm_num
    exact le_trans h1 (le_foldl_max _ _)

/-! ## Concrete alerts used as witnesses -/

/-- The concrete scenario alert of the spec (and of test_integration.py):
rule 61003 level 8 on HR-LAPTOP01, PowerShell command, MITRE T1059+T1047,
burst 3, explicit threat-intel hit. -/
def exampleAlert : Alert :=
  { ruleId := some "61003"
    ruleLevel := some 8
    ruleDescription := some "Suspicious PowerShell execution"
    agentName := some "HR-LAPTOP01"
    data := [("srcip", "10.0.2.15"), ("cmd", "powershell -enc ...")]
    mitre := ["T1059", "T1047"]
    full_log := some "powershell.exe -enc ..."
    recent_similar_count := 3
    ti_hit := some true }

/-- An alert whose rule-based score is exactly the 75 threshold: severity 12,
threat-intel hit, technique T1059, PowerShell log, unmapped host, no burst. -/
def blockAlert : Alert :=
  { ruleId := some "40111"
    ruleLevel := some 12
    ruleDescription := none
    agentName := none
    data := []
    mitre := ["T1059"]
    full_log := some "powershell"
    recent_similar_count := 0
    ti_hit := some true }

/-- An alert with no fields at all (pydantic defaults everywhere). -/
def emptyAlert : Alert :=
  { ruleId := none, ruleLevel := none, ruleDescription := none, agentName := none,
    data := [], mitre := [], full_log := none, recent_similar_count := 0, ti_hit := none }

/-- An alert with an explicit `ti_hit = False` and a source IP, exercising the
enrichment path. -/
def tiAlert : Alert :=
  { ruleId := none, ruleLevel := none, ruleDescription := none, agentName := none,
    data := [("srcip", "1.2.3.4")], mitre := [], full_log := none,
    recent_similar_count := 0, ti_hit := some false }

/-- `tiAlert` with an explicit `ti_hit = True`. -/
def tiAlertTrue : Alert := { tiAlert with ti_hit := some true }

/-- `exampleAlert` with a different log line and burst count — the fingerprint
components are unchanged. -/
def exampleAlertVariant : Alert :=
  { exampleAlert with full_log := some "a different raw log line",
                      recent_similar_count := 9 }

/-! ## Evaluating the scorers on the scenario alert -/

theorem compute_score_example (misp : String → Bool) :
    MainV1.compute_score misp exampleAlert = 7058 / 100 := by
  have hsev : MainV1.norm (sevOf exampleAlert) MainV1.SEVERITY_MAX = 2 / 3 :=
    MainV1.norm_eval_v1 _ _ _ (by norm_num [sevOf, exampleAlert, MainV1.SEVERITY_MAX])
      (by norm_num) (by norm_num)
  have hti : MainV1.tiOf misp exampleAlert = 1 := rfl
  have hburst : MainV1.norm (MainV1.burstOf exampleAlert) MainV1.BURST_MAX = 3 / 20 :=
    MainV1.norm_eval_v1 _ _ _ (by norm_num [MainV1.burstOf, exampleAlert, MainV1.BURST_MAX])
      (by norm_num) (by norm_num)
  have hasset : MainV1.norm (assetOf exampleAlert) 3 = 1 / 3 :=
    MainV1.norm_eval_v1 _ _ _ (by rw [show assetOf exampleAlert = 1 from rfl])
      (by norm_num) (by norm_num)
  have htech : MainV1.norm (techriskOf exampleAlert.mitre) 3 = 1 :=
    MainV1.norm_eval_v1 _ _ _
      (by rw [show techriskOf exampleAlert.mitre = max 3 3 from rfl, max_self]; norm_num)
      (by norm_num) (by norm_num)
  have hheur : MainV1.heurOf exampleAlert = 1 := rfl
  unfold MainV1.compute_score
  rw [hsev, hti, hburst, hasset, htech, hheur]
  rw [pyRound2_eq_down _ 7058 (by norm_num) (by norm_num)]
  norm_num

theorem predict_score_example : ModelUtils.predict_score exampleAlert = 7058 / 100 := by
  have hsev : ModelUtils.norm (sevOf exampleAlert) MainV1.SEVERITY_MAX = 2 / 3 :=
    ModelUtils.norm_eval_mu _ _ _ (by norm_num [sevOf, exampleAlert, MainV1.SEVERITY_MAX])
      (by norm_num) (by norm_num)
  have hti : ModelUtils.tiOf exampleAlert = 1 := rfl
  have hburst : ModelUtils.norm ((exampleAlert.recent_similar_count : ℚ)) MainV1.BURST_MAX
      = 3 / 20 :=
    ModelUtils.norm_eval_mu _ _ _ (by norm_num [exampleAlert, MainV1.BURST_MAX])
      (by norm_num) (by norm_num)
  have hasset : ModelUtils.norm (assetOf exampleAlert) 3 = 1 / 3 :=
    ModelUtils.norm_eval_mu _ _ _ (by rw [show assetOf exampleAlert = 1 from rfl])
      (by norm_num) (by norm_num)
  have htech : ModelUtils.norm (techriskOf exampleAlert.mitre) 3 = 1 :=
    ModelUtils.norm_eval_mu _ _ _
      (by rw [show techriskOf exampleAlert.mitre = max 3 3 from rfl, max_self]; norm_num)
      (by norm_num) (by norm_num)
  have hheur : ModelUtils.heurOf exampleAlert = 1 := rfl
  unfold ModelUtils.predict_score
  rw [hsev, hti, hburst, hasset, htech, hheur]
  rw [pyRound2_eq_down _ 7058 (by norm_num) (by norm_num)]
  norm_num

theorem predict_score_block : ModelUtils.predict_score blockAlert = 75 := by
  have hsev : ModelUtils.norm (sevOf blockAlert) MainV1.SEVERITY_MAX = 1 :=
    ModelUtils.norm_eval_mu _ _ _ (by norm_num [sevOf, blockAlert, MainV1.SEVERITY_MAX])
      (by norm_num) (by norm_num)
  have hti : ModelUtils.tiOf blockAlert = 1 := rfl
  have hburst : ModelUtils.norm ((blockAlert.recent_similar_count : ℚ)) MainV1.BURST_MAX
      = 0 :=
    ModelUtils.norm_eval_mu _ _ _ (by norm_num [blockAlert, MainV1.BURST_MAX])
      (by norm_num) (by norm_num)
  have hasset : ModelUtils.norm (assetOf blockAlert) 3 = 1 / 3 :=
    ModelUtils.norm_eval_mu _ _ _ (by rw [show assetOf blockAlert = 1 from rfl])
      (by norm_num) (by norm_num)
  have htech : ModelUtils.norm (techriskOf blockAlert.mitre) 3 = 1 :=
    ModelUtils.norm_eval_mu _ _ _
      (by rw [show techriskOf blockAlert.mitre = (3 : ℚ) from rfl]; norm_num)
      (by norm_num) (by norm_num)
  have hheur : ModelUtils.heurOf blockAlert = 1 := rfl
  unfold ModelUtils.predict_score
  rw [hsev, hti, hburst, hasset, htech, hheur]
  rw [pyRound2_eq_int _ 7500 (by norm_num)]
  norm_num

/-! ## Shape of the fingerprint -/

theorem sha1Words_len (m : List Nat) : (Sha1.sha1Words m).length = 5 := rfl

theorem hexDigest_sha1_len (m : List Nat) :
    (Sha1.hexDigest (Sha1.sha1Words m)).length = 40 := by
  have h : Sha1.sha1Words m = [(Sha1.sha1Words m).getD 0 0, (Sha1.sha1Words m).getD 1 0,
      (Sha1.sha1Words m).getD 2 0, (Sha1.sha1Words m).getD 3 0,
      (Sha1.sha1Words m).getD 4 0] := rfl
  rw [Sha1.hexDigest, h]
  simp [Sha1.toHex8]

theorem dedup_key_len (a : Alert) : (dedup_key a).length = 16 := by
  show (List.take 16 (Sha1.hexDigest (Sha1.sha1Words (Sha1.utf8 (dedupInput a))))).length = 16
  rw [List.length_take, hexDigest_sha1_len, min_eq_left (by norm_num)]

theorem hexChar_mem_hexDigits : ∀ d, d < 16 → Sha1.hexChar d ∈ Sha1.hexDigits := by decide

theorem dedup_key_hex (a : Alert) : ∀ c ∈ (dedup_key a).data, c ∈ Sha1.hexDigits := by
  intro c hc
  have hc2 : c ∈ Sha1.hexDigest (Sha1.sha1Words (Sha1.utf8 (dedupInput a))) :=
    List.take_subset _ _ hc
  rw [Sha1.hexDigest] at hc2
  obtain ⟨w, _, hcw⟩ := List.mem_flatMap.mp hc2
  rw [Sha1.toHex8] at hcw
  obtain ⟨i, _, hci⟩ := List.mem_map.mp hcw
  rw [← hci]
  exact hexChar_mem_hexDigits _ (Nat.mod_lt _ (by norm_num))

theorem dedup_key_congr (a b : Alert) (h : fpComponents a = fpComponents b) :
    dedup_key a = dedup_key b := by
  simp only [fpComponents, Prod.mk.injEq] at h
  obtain ⟨h1, h2, h3, h4⟩ := h
  unfold dedup_key dedupInput
  rw [h1, h2, h3, h4]

/-! ## Further `pyRound2` corollaries -/

theorem pyRound2_intCast (n : ℤ) : pyRound2 ((n : ℚ)) = (n : ℚ) := by
  rw [pyRound2_eq_int _ (100 * n) (by push_cast; ring)]
  push_cast
  ring

theorem pyRound2_ge_of_ge (x : ℚ) (n : ℤ) (h : (n : ℚ) ≤ x) : (n : ℚ) ≤ pyRound2 x := by
  have h2 := pyRound2_mono h
  rwa [pyRound2_intCast] at h2

theorem pyRound2_le_of_le (x : ℚ) (n : ℤ) (h : x ≤ (n : ℚ)) : pyRound2 x ≤ (n : ℚ) := by
  have h2 := pyRound2_mono h
  rwa [pyRound2_intCast] at h2

/-! ## The claims -/

/-- Claim C1: on the concrete alert with rule id "61003", level 8, agent
HR-LAPTOP01, srcip and PowerShell command, MITRE T1059+T1047, a PowerShell
full_log, burst 3 and an explicit threat-intel hit, the rule-based scorer with
the default weights returns exactly
round(100·(0.20·(8/12) + 0.20·1 + 0.15·(3/20) + 0.15·(1/3) + 0.15·1 + 0.15·1), 2)
= 70.58 — in both implementations (src/main.py `compute_score` and
src/app/model_utils.py `predict_score`). -/
theorem C1_concrete_scenario_score (misp : String → Bool) :
    MainV1.compute_score misp exampleAlert = 7058 / 100 ∧
    ModelUtils.predict_score exampleAlert = 7058 / 100 :=
  ⟨compute_score_example misp, predict_score_example⟩

/-- Claim C2: for every alert, the score of the rule-based scorer with the
default weights lies in [0, 100] — for both implementations. -/
theorem C2_score_bounds (misp : String → Bool) (a : Alert) :
    (0 ≤ MainV1.compute_score misp a ∧ MainV1.compute_score misp a ≤ 100) ∧
    (0 ≤ ModelUtils.predict_score a ∧ ModelUtils.predict_score a ≤ 100) := by
  have v1a := MainV1.norm_nonneg_v1 (sevOf a) MainV1.SEVERITY_MAX
  have v1b := MainV1.norm_le_one_v1 (sevOf a) MainV1.SEVERITY_MAX
  have v1c := MainV1.tiOf_nonneg_v1 misp a
  have v1d := MainV1.tiOf_le_one_v1 misp a
  have v1e := MainV1.norm_nonneg_v1 (MainV1.burstOf a) MainV1.BURST_MAX
  have v1f := MainV1.norm_le_one_v1 (MainV1.burstOf a) MainV1.BURST_MAX
  have v1g := MainV1.norm_nonneg_v1 (assetOf a) 3
  have v1h := MainV1.norm_le_one_v1 (assetOf a) 3
  have v1i := MainV1.norm_nonneg_v1 (techriskOf a.mitre) 3
  have v1j := MainV1.norm_le_one_v1 (techriskOf a.mitre) 3
  have v1k := MainV1.heurOf_nonneg_v1 a
  have v1l := MainV1.heurOf_le_one_v1 a
  have v2a := ModelUtils.norm_nonneg_mu (sevOf a) MainV1.SEVERITY_MAX
  have v2b := ModelUtils.norm_le_one_mu (sevOf a) MainV1.SEVERITY_MAX
  have v2c := ModelUtils.tiOf_nonneg_mu a
  have v2d := ModelUtils.tiOf_le_one_mu a
  have v2e := ModelUtils.norm_nonneg_mu ((a.recent_similar_count : ℚ)) MainV1.BURST_MAX
  have v2f := ModelUtils.norm_le_one_mu ((a.recent_similar_count : ℚ)) MainV1.BURST_MAX
  have v2g := ModelUtils.norm_nonneg_mu (assetOf a) 3
  have v2h := ModelUtils.norm_le_one_mu (assetOf a) 3
  have v2i := ModelUtils.norm_nonneg_mu (techriskOf a.mitre) 3
  have v2j := ModelUtils.norm_le_one_mu (techriskOf a.mitre) 3
  have v2k := ModelUtils.heurOf_nonneg_mu a
  have v2l := ModelUtils.heurOf_le_one_mu a
  refine ⟨⟨?_, ?_⟩, ⟨?_, ?_⟩⟩
  · unfold MainV1.compute_score
    exact_mod_cast pyRound2_ge_of_ge _ 0 (by push_cast; linarith)
  · unfold MainV1.compute_score
    exact_mod_cast pyRound2_le_of_le _ 100 (by push_cast; linarith)
  · unfold ModelUtils.predict_score
    exact_mod_cast pyRound2_ge_of_ge _ 0 (by push_cast; linarith)
  · unfold ModelUtils.predict_score
    exact_mod_cast pyRound2_le_of_le _ 100 (by push_cast; linarith)

/-- Claim C4: the fingerprint of every alert is a 16-character hexadecimal
string, and it is a deterministic pure function of the tuple
(rule id or "-", source IP or "-", host or "workstation", comma-joined MITRE
ids in the given order): alerts agreeing on these four components receive
identical fingerprints, regardless of any other field. -/
theorem C4_fingerprint_shape_and_determinism :
    (∀ a : Alert, (dedup_key a).length = 16 ∧ ∀ c ∈ (dedup_key a).data, c ∈ Sha1.hexDigits) ∧
    ∀ a b : Alert, fpComponents a = fpComponents b → dedup_key a = dedup_key b :=
  ⟨fun a => ⟨dedup_key_len a, dedup_key_hex a⟩, dedup_key_congr⟩

/-- Witness for C4: two concrete alerts that differ in `full_log` and
`recent_similar_count` but share the four identity components have the same
fingerprint. -/
theorem C4_fingerprint_witness :
    fpComponents exampleAlert = fpComponents exampleAlertVariant ∧
    exampleAlert.full_log ≠ exampleAlertVariant.full_log ∧
    dedup_key exampleAlert = dedup_key exampleAlertVariant :=
  ⟨rfl, by decide, C4_fingerprint_shape_and_determinism.2 _ _ rfl⟩

/-- Claim C5: a payload whose raw body lacks the `rule` key is rejected by the
v2 `/score` endpoint with the error result, before any scoring: the in-memory
cache and the audit file are returned unchanged and no score is computed. -/
theorem C5_missing_rule_rejected (misp : String → Bool) (st : AppMain.AuditState)
    (p : WazuhHandler.Payload) (h : p.ruleKeyPresent = false) :
    AppMain.score_alert misp st p = (AppMain.ScoreResult.invalid, st) := by
  unfold AppMain.score_alert WazuhHandler.validate_alert_structure
  rw [h]
  rfl

/-- Witness for C5: the concrete rule-less payload is rejected and the state
(cache and file) is unchanged. -/
theorem C5_missing_rule_witness :
    WazuhHandler.Payload.ruleKeyPresent ⟨false, emptyAlert⟩ = false ∧
    AppMain.score_alert (fun _ => false) ⟨[("k", 50)], [("k", 50)]⟩ ⟨false, emptyAlert⟩ =
      (AppMain.ScoreResult.invalid, ⟨[("k", 50)], [("k", 50)]⟩) :=
  ⟨rfl, C5_missing_rule_rejected _ _ _ rfl⟩

/-- Claim C6: the recommended action is "block_ip" exactly when the computed
score reaches the default threshold 75 (a score equal to the threshold yields
"block_ip"), "enrich_only" when below, and there is no other action value. -/
theorem C6_threshold_action (misp : String → Bool) (a : Alert) :
    (75 ≤ MainV1.compute_score misp a →
      MainV1.suggested_playbook (MainV1.compute_score misp a) = "block_ip") ∧
    (MainV1.compute_score misp a < 75 →
      MainV1.suggested_playbook (MainV1.compute_score misp a) = "enrich_only") ∧
    (75 ≤ ModelUtils.predict_score a →
      MainV1.suggested_playbook (ModelUtils.predict_score a) = "block_ip") ∧
    (ModelUtils.predict_score a < 75 →
      MainV1.suggested_playbook (ModelUtils.predict_score a) = "enrich_only") ∧
    ∀ s : ℚ, MainV1.suggested_playbook s = "block_ip" ∨
      MainV1.suggested_playbook s = "enrich_only" := by
  unfold MainV1.suggested_playbook
  refine ⟨fun h => if_pos h, fun h => if_neg (not_le.mpr h),
    fun h => if_pos h, fun h => if_neg (not_le.mpr h), fun s => ?_⟩
  by_cases hs : 75 ≤ s
  · exact Or.inl (if_pos hs)
  · exact Or.inr (if_neg hs)

/-- Witness for C6: `blockAlert` scores exactly 75 and gets "block_ip" (the
boundary case); the scenario alert scores 70.58 and gets "enrich_only". -/
theorem C6_threshold_witness :
    (75 ≤ ModelUtils.predict_score blockAlert ∧
      MainV1.suggested_playbook (ModelUtils.predict_score blockAlert) = "block_ip") ∧
    (ModelUtils.predict_score exampleAlert < 75 ∧
      MainV1.suggested_playbook (ModelUtils.predict_score exampleAlert) = "enrich_only") := by
  have hb : (75 : ℚ) ≤ ModelUtils.predict_score blockAlert := by rw [predict_score_block]
  have he : ModelUtils.predict_score exampleAlert < 75 := by
    rw [predict_score_example]; norm_num
  exact ⟨⟨hb, (C6_threshold_action (fun _ => false) blockAlert).2.2.1 hb⟩,
    ⟨he, (C6_threshold_action (fun _ => false) exampleAlert).2.2.2.1 he⟩⟩

/-- Claim C3: with the 10-minute window, three successive requests for the same
dedup key behave as the claimed state machine: the first (score 50) is recorded
from the empty state; the second (score 40 ≤ 50, still inside the window) is
suppressed, returning only the key and timestamp and leaving the whole state
(including the audit log) unchanged; the third (score 60 > 50, still inside the
window) is recorded as an escalation and refreshes the window to `t3 + 600`. -/
theorem C3_suppression_state_machine (k : String) (t1 t2 t3 : ℚ)
    (h1 : 0 < t1) (h2 : t2 ≤ t1 + 600) (h3 : t3 ≤ t1 + 600) :
    MainV1.score_step MainV1.emptyState k 50 t1 =
      (MainV1.ScoreOutcome.recorded k 50, ⟨[(k, 50)], [(k, t1 + 600)], [(k, 50)]⟩) ∧
    MainV1.score_step ⟨[(k, 50)], [(k, t1 + 600)], [(k, 50)]⟩ k 40 t2 =
      (MainV1.ScoreOutcome.suppressedAck k t2, ⟨[(k, 50)], [(k, t1 + 600)], [(k, 50)]⟩) ∧
    MainV1.score_step ⟨[(k, 50)], [(k, t1 + 600)], [(k, 50)]⟩ k 60 t3 =
      (MainV1.ScoreOutcome.recorded k 60,
        ⟨[(k, 60), (k, 50)], [(k, t3 + 600), (k, t1 + 600)], [(k, 50), (k, 60)]⟩) := by
  have s1 : MainV1.should_suppress MainV1.emptyState k 50 t1 = false := by
    unfold MainV1.should_suppress MainV1.emptyState
    simp only [List.lookup_nil, Option.getD_none]
    rw [if_pos h1]
  have s2 : MainV1.should_suppress ⟨[(k, 50)], [(k, t1 + 600)], [(k, 50)]⟩ k 40 t2 = true := by
    unfold MainV1.should_suppress
    simp only [List.lookup_cons_self, Option.getD_some]
    rw [if_neg (not_lt.mpr h2)]
    simp only [decide_eq_true_eq]
    norm_num
  have s3 : MainV1.should_suppress ⟨[(k, 50)], [(k, t1 + 600)], [(k, 50)]⟩ k 60 t3 = false := by
    unfold MainV1.should_suppress
    simp only [List.lookup_cons_self, Option.getD_some]
    rw [if_neg (not_lt.mpr h3)]
    simp only [decide_eq_false_iff_not]
    norm_num
  refine ⟨?_, ?_, ?_⟩
  · unfold MainV1.score_step
    rw [s1]
    unfold MainV1.audit_store MainV1.touch_suppress MainV1.emptyState MainV1.SUPPRESS_MINUTES
    norm_num
  · unfold MainV1.score_step
    rw [s2]
    simp
  · unfold MainV1.score_step
    rw [s3]
    unfold MainV1.audit_store MainV1.touch_suppress MainV1.SUPPRESS_MINUTES
    norm_num

/-- Witness for C3: the three-step run at the concrete times 100, 200, 300
(all inside the 600-second window opened at 100). -/
theorem C3_suppression_witness :
    (0 : ℚ) < 100 ∧ (200 : ℚ) ≤ 100 + 600 ∧ (300 : ℚ) ≤ 100 + 600 ∧
    (MainV1.score_step MainV1.emptyState "k" 50 100 =
      (MainV1.ScoreOutcome.recorded "k" 50, ⟨[("k", 50)], [("k", 100 + 600)], [("k", 50)]⟩) ∧
    MainV1.score_step ⟨[("k", 50)], [("k", 100 + 600)], [("k", 50)]⟩ "k" 40 200 =
      (MainV1.ScoreOutcome.suppressedAck "k" 200,
        ⟨[("k", 50)], [("k", 100 + 600)], [("k", 50)]⟩) ∧
    MainV1.score_step ⟨[("k", 50)], [("k", 100 + 600)], [("k", 50)]⟩ "k" 60 300 =
      (MainV1.ScoreOutcome.recorded "k" 60,
        ⟨[("k", 60), ("k", 50)], [("k", 300 + 600), ("k", 100 + 600)],
          [("k", 50), ("k", 60)]⟩)) :=
  ⟨by norm_num, by norm_num, by norm_num,
    C3_suppression_state_machine "k" 100 200 300 (by norm_num) (by norm_num) (by norm_num)⟩

/-- Counterexample to claim C7 as stated: `round(x, 2)` in both scorers is not
round-half-away-from-zero.  At the raw score 70.125 — whose third decimal
makes it an exact half — the rounding used by the code returns 70.12 (the even
neighbour), not 70.13. -/
theorem C7_round_counterexample :
    pyRound2 (70125 / 1000) = 7012 / 100 ∧ (7012 / 100 : ℚ) ≠ 7013 / 100 := by
  constructor
  · rw [pyRound2_eq_half _ 7012 (by norm_num)]
    norm_num
  · norm_num

/-- Claim C7 as amended: the final score is rounded to 2 decimal places with
round-half-to-even (Python's `round`): a raw score that is an exact half at the
third decimal, `(20k+5)/1000` or `(20k+15)/1000`, is rounded by `pyRound2` to
the even hundredth (`2k`, respectively `2k+2`), never away from zero. -/
theorem C7_round_half_even (k : ℤ) :
    pyRound2 ((20 * (k : ℚ) + 5) / 1000) = 2 * (k : ℚ) / 100 ∧
    pyRound2 ((20 * (k : ℚ) + 15) / 1000) = (2 * (k : ℚ) + 2) / 100 := by
  constructor
  · rw [pyRound2_eq_half _ (2 * k) (by push_cast; ring)]
    rw [if_pos (by omega : (2 * k) % 2 = 0)]
    push_cast
    ring
  · rw [pyRound2_eq_half _ (2 * k + 1) (by push_cast; ring)]
    rw [if_neg (by omega : ¬((2 * k + 1) % 2 = 0))]
    push_cast
    ring

/-- Counterexample to claim C8 as stated: on an alert that explicitly sets
`ti_hit = False` and carries a source IP, `enrich_alert_with_ti` still invokes
the external lookup — the enriched flag equals the oracle's answer (so it
flips to `True` under an oracle that reports a hit), instead of the explicit
`False` being kept with no lookup. -/
theorem C8_ti_counterexample :
    tiAlert.ti_hit = some false ∧
    (WazuhHandler.enrich_alert_with_ti (fun _ => true) tiAlert).ti_hit = some true ∧
    (WazuhHandler.enrich_alert_with_ti (fun _ => false) tiAlert).ti_hit = some false :=
  ⟨rfl, rfl, rfl⟩

/-- Claim C8 as amended: in v1's `compute_score` the lookup is consulted only
when `ti_hit` is `None` — an explicit Boolean is used as the feature and the
oracle is irrelevant; in v2's `enrich_alert_with_ti` an explicit `True` is
preserved (no lookup), but whenever a non-empty source IP is present and
`ti_hit` is not truthy — including an explicit `False` — the flag is
overwritten with the lookup's answer. -/
theorem C8_ti_explicit_flag (misp1 misp2 : String → Bool) (a : Alert) :
    (∀ b : Bool, a.ti_hit = some b →
      MainV1.tiOf misp1 a = (if b then 1 else 0) ∧
      MainV1.tiOf misp1 a = MainV1.tiOf misp2 a) ∧
    (a.ti_hit = some true → WazuhHandler.enrich_alert_with_ti misp1 a = a) ∧
    (∀ s : String, srcipRaw a = some s → s ≠ "" → a.ti_hit = some false →
      (WazuhHandler.enrich_alert_with_ti misp1 a).ti_hit = some (misp1 s)) := by
  refine ⟨?_, ?_, ?_⟩
  · intro b hb
    unfold MainV1.tiOf
    rw [hb]
    exact ⟨rfl, rfl⟩
  · intro ht
    unfold WazuhHandler.enrich_alert_with_ti
    cases hs : srcipRaw a with
    | none => rfl
    | some s => simp [ht, ModelUtils.tiTruthy]
  · intro s hs hne ht
    unfold WazuhHandler.enrich_alert_with_ti
    rw [hs]
    simp [ht, ModelUtils.tiTruthy, bne_iff_ne, hne]

/-- Witness for the amended C8: concrete alerts exercising all three amended
behaviours (explicit flag used by v1; explicit `True` preserved by the
enricher; explicit `False` overwritten by the lookup's answer). -/
theorem C8_ti_explicit_flag_witness :
    MainV1.tiOf (fun _ => false) tiAlertTrue = 1 ∧
    WazuhHandler.enrich_alert_with_ti (fun _ => false) tiAlertTrue = tiAlertTrue ∧
    (WazuhHandler.enrich_alert_with_ti (fun _ => true) tiAlert).ti_hit = some true := by
  refine ⟨?_, ?_, ?_⟩
  · have h := ((C8_ti_explicit_flag (fun _ => false) (fun _ => true) tiAlertTrue).1 true rfl).1
    simpa using h
  · exact (C8_ti_explicit_flag (fun _ => false) (fun _ => true) tiAlertTrue).2.1 rfl
  · exact (C8_ti_explicit_flag (fun _ => true) (fun _ => false) tiAlert).2.2
      "1.2.3.4" rfl (by decide) rfl

/-- Claim C9: increasing `recent_similar_count` while holding every other field
fixed never decreases the score, in either implementation (the burst feature is
normalized monotonically and all default weights are non-negative). -/
theorem C9_burst_monotone (misp : String → Bool) (a : Alert) (b1 b2 : ℤ) (h : b1 ≤ b2) :
    MainV1.compute_score misp { a with recent_similar_count := b1 } ≤
      MainV1.compute_score misp { a with recent_similar_count := b2 } ∧
    ModelUtils.predict_score { a with recent_similar_count := b1 } ≤
      ModelUtils.predict_score { a with recent_similar_count := b2 } := by
  have hc : ((b1 : ℚ)) ≤ (b2 : ℚ) := by exact_mod_cast h
  have hn1 : MainV1.norm ((b1 : ℚ)) MainV1.BURST_MAX ≤ MainV1.norm ((b2 : ℚ)) MainV1.BURST_MAX :=
    MainV1.norm_mono_v1 MainV1.BURST_MAX (by norm_num [MainV1.BURST_MAX]) hc
  have hn2 : ModelUtils.norm ((b1 : ℚ)) MainV1.BURST_MAX
      ≤ ModelUtils.norm ((b2 : ℚ)) MainV1.BURST_MAX :=
    ModelUtils.norm_mono_mu MainV1.BURST_MAX (by norm_num [MainV1.BURST_MAX]) hc
  constructor
  · unfold MainV1.compute_score
    apply pyRound2_mono
    have e1 : sevOf { a with recent_similar_count := b1 }
        = sevOf { a with recent_similar_count := b2 } := rfl
    have e2 : MainV1.tiOf misp { a with recent_similar_count := b1 }
        = MainV1.tiOf misp { a with recent_similar_count := b2 } := rfl
    have e3 : assetOf { a with recent_similar_count := b1 }
        = assetOf { a with recent_similar_count := b2 } := rfl
    have e4 : techriskOf (Alert.mitre { a with recent_similar_count := b1 })
        = techriskOf (Alert.mitre { a with recent_similar_count := b2 }) := rfl
    have e5 : MainV1.heurOf { a with recent_similar_count := b1 }
        = MainV1.heurOf { a with recent_similar_count := b2 } := rfl
    have e6 : MainV1.burstOf { a with recent_similar_count := b1 } = ((b1 : ℚ)) := rfl
    have e7 : MainV1.burstOf { a with recent_similar_count := b2 } = ((b2 : ℚ)) := rfl
    rw [e1, e2, e3, e4, e5, e6, e7]
    linarith
  · unfold ModelUtils.predict_score
    apply pyRound2_mono
    have e1 : sevOf { a with recent_similar_count := b1 }
        = sevOf { a with recent_similar_count := b2 } := rfl
    have e2 : ModelUtils.tiOf { a with recent_similar_count := b1 }
        = ModelUtils.tiOf { a with recent_similar_count := b2 } := rfl
    have e3 : assetOf { a with recent_similar_count := b1 }
        = assetOf { a with recent_similar_count := b2 } := rfl
    have e4 : techriskOf (Alert.mitre { a with recent_similar_count := b1 })
        = techriskOf (Alert.mitre { a with recent_similar_count := b2 }) := rfl
    have e5 : ModelUtils.heurOf { a with recent_similar_count := b1 }
        = ModelUtils.heurOf { a with recent_similar_count := b2 } := rfl
    have e6 : (Alert.recent_similar_count { a with recent_similar_count := b1 } : ℚ)
        = ((b1 : ℚ)) := rfl
    have e7 : (Alert.recent_similar_count { a with recent_similar_count := b2 } : ℚ)
        = ((b2 : ℚ)) := rfl
    rw [e1, e2, e3, e4, e5, e6, e7]
    linarith

/-- Witness for C9: the scenario alert with burst 1 versus burst 5. -/
theorem C9_burst_monotone_witness :
    (1 : ℤ) ≤ 5 ∧
    (MainV1.compute_score (fun _ => false) { exampleAlert with recent_similar_count := 1 } ≤
      MainV1.compute_score (fun _ => false) { exampleAlert with recent_similar_count := 5 } ∧
    ModelUtils.predict_score { exampleAlert with recent_similar_count := 1 } ≤
      ModelUtils.predict_score { exampleAlert with recent_similar_count := 5 }) :=
  ⟨by norm_num, C9_burst_monotone (fun _ => false) exampleAlert 1 5 (by norm_num)⟩

/-- Claim C10: with the default weights the rule-based score of every alert is
at least 10 (asset criticality and technique risk each contribute at least
0.15·(1/3)·100 = 5 points), hence never 0; when the rule has no `level` field
the severity default of 3 raises the floor to 15 — in both implementations. -/
theorem C10_score_floor :
    (∀ (misp : String → Bool) (a : Alert), 10 ≤ MainV1.compute_score misp a) ∧
    (∀ a : Alert, 10 ≤ ModelUtils.predict_score a) ∧
    (∀ (misp : String → Bool) (a : Alert), a.ruleLevel = none →
      15 ≤ MainV1.compute_score misp a) ∧
    (∀ a : Alert, a.ruleLevel = none → 15 ≤ ModelUtils.predict_score a) := by
  have base1 : ∀ (misp : String → Bool) (a : Alert),
      10 ≤ MainV1.compute_score misp a := by
    intro misp a
    have v1a := MainV1.norm_nonneg_v1 (sevOf a) MainV1.SEVERITY_MAX
    have v1c := MainV1.tiOf_nonneg_v1 misp a
    have v1e := MainV1.norm_nonneg_v1 (MainV1.burstOf a) MainV1.BURST_MAX
    have v1g := MainV1.norm_ge_third_v1 (assetOf a) (one_le_assetOf a)
    have v1i := MainV1.norm_ge_third_v1 (techriskOf a.mitre) (one_le_techriskOf a.mitre)
    have v1k := MainV1.heurOf_nonneg_v1 a
    unfold MainV1.compute_score
    exact_mod_cast pyRound2_ge_of_ge _ 10 (by push_cast; linarith)
  have base2 : ∀ a : Alert, 10 ≤ ModelUtils.predict_score a := by
    intro a
    have v2a := ModelUtils.norm_nonneg_mu (sevOf a) MainV1.SEVERITY_MAX
    have v2c := ModelUtils.tiOf_nonneg_mu a
    have v2e := ModelUtils.norm_nonneg_mu ((a.recent_similar_count : ℚ)) MainV1.BURST_MAX
    have v2g := ModelUtils.norm_ge_third_mu (assetOf a) (one_le_assetOf a)
    have v2i := ModelUtils.norm_ge_third_mu (techriskOf a.mitre) (one_le_techriskOf a.mitre)
    have v2k := ModelUtils.heurOf_nonneg_mu a
    unfold ModelUtils.predict_score
    exact_mod_cast pyRound2_ge_of_ge _ 10 (by push_cast; linarith)
  refine ⟨base1, base2, ?_, ?_⟩
  · intro misp a h
    have hs : sevOf a = 3 := by unfold sevOf; rw [h]; rfl
    have hnorm : MainV1.norm (sevOf a) MainV1.SEVERITY_MAX = 1 / 4 :=
      MainV1.norm_eval_v1 _ _ _ (by rw [hs]; norm_num [MainV1.SEVERITY_MAX])
        (by norm_num) (by norm_num)
    have v1c := MainV1.tiOf_nonneg_v1 misp a
    have v1e := MainV1.norm_nonneg_v1 (MainV1.burstOf a) MainV1.BURST_MAX
    have v1g := MainV1.norm_ge_third_v1 (assetOf a) (one_le_assetOf a)
    have v1i := MainV1.norm_ge_third_v1 (techriskOf a.mitre) (one_le_techriskOf a.mitre)
    have v1k := MainV1.heurOf_nonneg_v1 a
    unfold MainV1.compute_score
    rw [hnorm]
    exact_mod_cast pyRound2_ge_of_ge _ 15 (by push_cast; linarith)
  · intro a h
    have hs : sevOf a = 3 := by unfold sevOf; rw [h]; rfl
    have hnorm : ModelUtils.norm (sevOf a) MainV1.SEVERITY_MAX = 1 / 4 :=
      ModelUtils.norm_eval_mu _ _ _ (by rw [hs]; norm_num [MainV1.SEVERITY_MAX])
        (by norm_num) (by norm_num)
    have v2c := ModelUtils.tiOf_nonneg_mu a
    have v2e := ModelUtils.norm_nonneg_mu ((a.recent_similar_count : ℚ)) MainV1.BURST_MAX
    have v2g := ModelUtils.norm_ge_third_mu (assetOf a) (one_le_assetOf a)
    have v2i := ModelUtils.norm_ge_third_mu (techriskOf a.mitre) (one_le_techriskOf a.mitre)
    have v2k := ModelUtils.heurOf_nonneg_mu a
    unfold ModelUtils.predict_score
    rw [hnorm]
    exact_mod_cast pyRound2_ge_of_ge _ 15 (by push_cast; linarith)

/-- Witness for C10: the all-defaults alert (no rule level at all) scores at
least 15 in both implementations. -/
theorem C10_score_floor_witness :
    emptyAlert.ruleLevel = none ∧
    15 ≤ MainV1.compute_score (fun _ => false) emptyAlert ∧
    15 ≤ ModelUtils.predict_score emptyAlert :=
  ⟨rfl, C10_score_floor.2.2.1 (fun _ => false) emptyAlert rfl,
    C10_score_floor.2.2.2 emptyAlert rfl⟩
